import Mathlib

/-!
Offer-management operation builder (`exp/txnbuild/manage_offer.go`).

A shallow embedding of the three `ManageOffer` factory functions and of
`(*ManageOffer).BuildXDR`, followed by the properties of the builder.

`BuildXDR` has a pointer receiver and writes the cached record `mo.xdrOp`
while it runs.  It is embedded by explicit state passing: the Lean function
returns the pair the Go method returns together with the builder as it stands
after the call.

The file `manage_offer.go` calls into four collaborators whose code lives in
other packages: `(*Asset).ToXDR`, `amount.Parse`, `price.Parse` and
`xdr.NewOperationBody`.  `BuildXDR` is embedded once, over an arbitrary
bundle of these four functions (`Collaborators`); the properties of the
orchestration hold for every such bundle.  Concrete collaborators, written
after the prose specification, are provided for the statements that speak of
concrete strings and assets.

The two `*Asset` fields are embedded by the asset values they point to: the
builder only reads through these references.
-/

namespace txnbuild

/-! ## Errors -/

/-- Modelled from the spec: the error taxonomy of the specification
(`InvalidAmount`, `InvalidPrice`, `InvalidAsset`, `InvalidIssuer`,
`EncodingFailure`); the Go `error` values produced by the collaborating
packages are not part of `manage_offer.go`.  `Wrapped` is the value
`errors.Wrap` builds: a cause and a context message. -/
inductive Error where
  | InvalidAmount (rule : String)
  | InvalidPrice
  | InvalidAsset
  | InvalidIssuer
  | EncodingFailure
  | Wrapped (cause : Error) (message : String)
  deriving DecidableEq, Repr

/-- The call `errors.Wrap(err, message)` on a non-nil `err`: the cause annotated with
a context message. -/
def errors.Wrap (err : Error) (message : String) : Error :=
  Error.Wrapped err message

/-! ## Data model -/

/-- Modelled from the spec: the type `Asset` (declared outside
`manage_offer.go`): either the native asset or an asset issued by an account,
carrying its code and the issuer's account identifier string. -/
inductive Asset where
  | Native
  | Issued (code : String) (issuer : String)
  deriving DecidableEq, Repr

/-- Modelled from the spec: the helper `NewNativeAsset` (declared outside
`manage_offer.go`) returns the native asset. -/
def NewNativeAsset : Asset := Asset.Native

/-- Modelled from the spec: the helper `NewAsset` (declared outside
`manage_offer.go`) returns the asset issued under `code` by `issuer`. -/
def NewAsset (code issuer : String) : Asset := Asset.Issued code issuer

/-- Modelled from the spec: the wire form of an account identifier, produced
by the external account-ID codec; its content is opaque to the builder. -/
structure xdr.AccountId where
  key : List Nat
  deriving DecidableEq, Repr

/-- Modelled from the spec: the wire-encoded asset (`xdr.Asset`): a bare tag
for the native asset, or the code together with the encoded issuer. -/
inductive xdr.Asset where
  | Native
  | Credit (code : String) (issuer : xdr.AccountId)
  deriving DecidableEq, Repr

/-- Modelled from the spec: the wire price (`xdr.Price`), two 4-byte
integers: numerator and denominator. -/
structure xdr.Price where
  N : Int
  D : Int
  deriving DecidableEq, Repr

/-- Modelled from the spec: the manage-offer record (`xdr.ManageOfferOp`)
with the five fields `BuildXDR` assigns: selling asset, buying asset, amount
(8-byte integer), price, offer id (8-byte unsigned integer). -/
structure xdr.ManageOfferOp where
  Selling : xdr.Asset
  Buying : xdr.Asset
  Amount : Int
  Price : xdr.Price
  OfferId : Nat
  deriving DecidableEq, Repr

/-- The Go zero value of `xdr.ManageOfferOp`. -/
def xdr.ManageOfferOp.zero : xdr.ManageOfferOp :=
  { Selling := xdr.Asset.Native, Buying := xdr.Asset.Native, Amount := 0,
    Price := { N := 0, D := 0 }, OfferId := 0 }

/-- Modelled from the spec: the discriminant of the operation-body union.
`manage_offer.go` names one value, `OperationTypeManageOffer`; `Zero` is the
Go zero value of the discriminant, the one an empty body holds. -/
inductive xdr.OperationType where
  | Zero
  | ManageOffer
  deriving DecidableEq, Repr

/-- The constant `xdr.OperationTypeManageOffer`. -/
def xdr.OperationTypeManageOffer : xdr.OperationType := xdr.OperationType.ManageOffer

/-- Modelled from the spec: the tagged operation-body envelope
(`xdr.OperationBody`): a discriminant and, under the manage-offer
discriminant, the manage-offer record. -/
structure xdr.OperationBody where
  Discriminant : xdr.OperationType
  ManageOfferOp : Option xdr.ManageOfferOp
  deriving DecidableEq, Repr

/-- Modelled from the spec: the operation (`xdr.Operation`): an optional
source account and the body. -/
structure xdr.Operation where
  SourceAccount : Option xdr.AccountId
  Body : xdr.OperationBody
  deriving DecidableEq, Repr

/-- The Go composite literal `xdr.Operation{}`: the empty operation. -/
def xdr.Operation.zero : xdr.Operation :=
  { SourceAccount := none,
    Body := { Discriminant := xdr.OperationType.Zero, ManageOfferOp := none } }

/-- The struct `ManageOffer` (lines 51-58): the user-facing fields and the
cached record `xdrOp`.  `OfferID` is a `uint64`, embedded as a natural
number; the builder only copies it. -/
structure ManageOffer where
  Selling : Asset
  Buying : Asset
  Amount : String
  Price : String
  OfferID : Nat
  xdrOp : xdr.ManageOfferOp
  deriving DecidableEq, Repr

/-! ## Factory functions -/

/-- The function `NewCreateOfferOp` (lines 12-20).  The composite literal leaves
`xdrOp` out, so it holds its zero value. -/
def NewCreateOfferOp (selling buying : Asset) (amount price : String) : ManageOffer :=
  { Selling := selling,
    Buying := buying,
    Amount := amount,
    Price := price,
    OfferID := 0,
    xdrOp := xdr.ManageOfferOp.zero }

/-- The function `NewUpdateOfferOp` (lines 23-31). -/
def NewUpdateOfferOp (selling buying : Asset) (amount price : String) (offerID : Nat) :
    ManageOffer :=
  { Selling := selling,
    Buying := buying,
    Amount := amount,
    Price := price,
    OfferID := offerID,
    xdrOp := xdr.ManageOfferOp.zero }

/-- The function `NewDeleteOfferOp` (lines 35-47). -/
def NewDeleteOfferOp (offerID : Nat) : ManageOffer :=
  { Selling := NewNativeAsset,
    Buying := NewAsset "FAKE" "GBAQPADEYSKYMYXTMASBUIS5JI3LMOAWSTM2CHGDBJ3QDDPNCSO3DVAA",
    Amount := "0",
    Price := "1",
    OfferID := offerID,
    xdrOp := xdr.ManageOfferOp.zero }

/-! ## The encode step -/

/-- The four functions `BuildXDR` calls that are defined in other packages.
Each returns a value or an error. -/
structure Collaborators where
  ToXDR : Asset → Except Error xdr.Asset
  amountParse : String → Except Error Int
  priceParse : String → Except Error xdr.Price
  NewOperationBody : xdr.OperationType → xdr.ManageOfferOp → Except Error xdr.OperationBody

/-- The method `(*ManageOffer).BuildXDR` (lines 61-95).  The first component is the
returned pair `(xdr.Operation, error)`, with `none` for a nil error; the
second component is the receiver after the call. -/
def ManageOffer.BuildXDR (c : Collaborators) (mo : ManageOffer) :
    (xdr.Operation × Option Error) × ManageOffer :=
  match c.ToXDR mo.Selling with
  | .error err =>
    ((xdr.Operation.zero, some (errors.Wrap err "Failed to set XDR 'Selling' field")), mo)
  | .ok xdrSelling =>
    let mo := { mo with xdrOp := { mo.xdrOp with Selling := xdrSelling } }
    match c.ToXDR mo.Buying with
    | .error err =>
      ((xdr.Operation.zero, some (errors.Wrap err "Failed to set XDR 'Buying' field")), mo)
    | .ok xdrBuying =>
      let mo := { mo with xdrOp := { mo.xdrOp with Buying := xdrBuying } }
      match c.amountParse mo.Amount with
      | .error err =>
        ((xdr.Operation.zero, some (errors.Wrap err "Failed to parse 'Amount'")), mo)
      | .ok xdrAmount =>
        let mo := { mo with xdrOp := { mo.xdrOp with Amount := xdrAmount } }
        match c.priceParse mo.Price with
        | .error err =>
          ((xdr.Operation.zero, some (errors.Wrap err "Failed to parse 'Price'")), mo)
        | .ok xdrPrice =>
          let mo := { mo with xdrOp := { mo.xdrOp with Price := xdrPrice } }
          let mo := { mo with xdrOp := { mo.xdrOp with OfferId := mo.OfferID } }
          let opType := xdr.OperationTypeManageOffer
          match c.NewOperationBody opType mo.xdrOp with
          | .error err =>
            ((xdr.Operation.zero,
              some (errors.Wrap err "Failed to build XDR OperationBody")), mo)
          | .ok body =>
            (({ SourceAccount := none, Body := body }, none), mo)

/-! ## Collaborators, after the specification -/

/-- Value of a decimal digit character, if it is one. -/
def digitValue (ch : Char) : Option Nat :=
  if 48 ≤ ch.toNat ∧ ch.toNat ≤ 57 then some (ch.toNat - 48) else none

/-- Base-10 value of a non-empty list of digit characters; `none` when the
list is empty or holds a character that is not a digit. -/
def parseDigits (cs : List Char) : Option Nat :=
  match cs with
  | [] => none
  | _ => cs.foldl (fun acc ch =>
      match acc, digitValue ch with
      | some n, some v => some (n * 10 + v)
      | _, _ => none) (some 0)

/-- A base-10 integer with an optional sign. -/
def parseSigned (cs : List Char) : Option Int :=
  match cs with
  | '-' :: rest => (parseDigits rest).map (fun n => - (n : Int))
  | '+' :: rest => (parseDigits rest).map (fun n => (n : Int))
  | _ => (parseDigits cs).map (fun n => (n : Int))

/-- Largest signed 64-bit integer. -/
def MaxInt64 : Nat := 9223372036854775807

/-- Largest signed 32-bit integer. -/
def MaxInt32 : Nat := 2147483647

/-- Smallest signed 32-bit integer. -/
def MinInt32 : Int := -2147483648

/-- Modelled from the spec: the function `amount.Parse` (package `amount`,
outside `manage_offer.go`), section 4.1.  The input is a base-10 string,
optionally signed-positive, with at most one decimal point and at most 7 digits
after it.  The integer and fractional parts are split, the fractional part is
padded with zeros to exactly 7 digits, and the concatenation is read as an
integer.  Rejected: the empty string, characters that are not digits, more
than 7 fractional digits, and a combined value beyond the signed 64-bit
range. -/
def amount.Parse (v : String) : Except Error Int :=
  let cs := match v.toList with
    | '+' :: rest => rest
    | other => other
  let parts := cs.span (fun ch => ch != '.')
  let intPart := parts.1
  let fracPart := parts.2.drop 1
  if cs = [] then .error (Error.InvalidAmount "empty")
  else if fracPart.length > 7 ∧ (intPart ++ fracPart).all (fun ch => (digitValue ch).isSome) then
    .error (Error.InvalidAmount "too many fractional digits")
  else
    match parseDigits (intPart ++ fracPart ++ List.replicate (7 - fracPart.length) '0') with
    | none => .error (Error.InvalidAmount "malformed")
    | some n =>
      if n > MaxInt64 then .error (Error.InvalidAmount "overflow")
      else .ok (n : Int)

/-- Continued-fraction expansion of `num / den`: at each step the integer
floor `a` and the next convergent `h / k` are computed; the expansion stops
when the numerator or the denominator of the next convergent would exceed the
signed 32-bit range, or when the expansion is exact, and yields the last
convergent that fits.  `h1 / k1` and `h2 / k2` are the two previous
convergents.  The remainder `den` decreases at every step, so `den + 1` steps
of `fuel` always suffice. -/
def price.continuedFraction : Nat → Nat → Nat → Nat → Nat → Nat → Nat → Nat × Nat
  | 0, _, _, h1, _, k1, _ => (h1, k1)
  | fuel + 1, num, den, h1, h2, k1, k2 =>
    if den = 0 then (h1, k1)
    else
      let a := num / den
      let h := a * h1 + h2
      let k := a * k1 + k2
      if h > MaxInt32 ∨ k > MaxInt32 then (h1, k1)
      else price.continuedFraction fuel den (num % den) h h1 k k1

/-- Modelled from the spec: the function `price.Parse` (package `price`,
outside `manage_offer.go`), section 4.2.  Two input shapes are accepted.
(a) An explicit rational string `n:d`: both parts must read as 32-bit
integers and `d` must be positive.  (b) A decimal string, approximated by
continued-fraction expansion.  A price of exactly 0 is rejected, as is a
string of neither shape and a decimal of which no convergent fits. -/
def price.Parse (v : String) : Except Error xdr.Price :=
  let cs := v.toList
  if ':' ∈ cs then
    let parts := cs.span (fun ch => ch != ':')
    match parseSigned parts.1, parseSigned (parts.2.drop 1) with
    | some n, some d =>
      if MinInt32 ≤ n ∧ n ≤ (MaxInt32 : Int) ∧ 0 < d ∧ d ≤ (MaxInt32 : Int) ∧ n ≠ 0 then
        .ok { N := n, D := d }
      else .error Error.InvalidPrice
    | _, _ => .error Error.InvalidPrice
  else
    let parts := cs.span (fun ch => ch != '.')
    let intPart := parts.1
    let fracPart := parts.2.drop 1
    match parseDigits (intPart ++ fracPart) with
    | none => .error Error.InvalidPrice
    | some num =>
      let den := 10 ^ fracPart.length
      if num = 0 then .error Error.InvalidPrice
      else
        let nd := price.continuedFraction (den + 1) num den 1 0 0 1
        if nd.1 = 0 ∨ nd.2 = 0 then .error Error.InvalidPrice
        else .ok { N := (nd.1 : Int), D := (nd.2 : Int) }

/-- Modelled from the spec: the method `(*Asset).ToXDR` (declared outside
`manage_offer.go`), section 4.3.  The native asset encodes to its bare wire
tag.  An issued asset has its code validated (1 to 12 characters, alphanumeric
only; otherwise `InvalidAsset`) and its issuer handed to the external
account-ID codec `decodeAddress`, whose failure surfaces as `InvalidIssuer`. -/
def Asset.ToXDR (decodeAddress : String → Option xdr.AccountId) (a : Asset) :
    Except Error xdr.Asset :=
  match a with
  | Asset.Native => .ok xdr.Asset.Native
  | Asset.Issued code issuer =>
    if 1 ≤ code.toList.length ∧ code.toList.length ≤ 12
        ∧ code.toList.all (fun ch => ch.isAlphanum) then
      match decodeAddress issuer with
      | some accountId => .ok (xdr.Asset.Credit code accountId)
      | none => .error Error.InvalidIssuer
    else .error Error.InvalidAsset

/-- Modelled from the spec: the function `xdr.NewOperationBody` (package
`xdr`, outside `manage_offer.go`): wraps the record into the tagged
operation-body envelope under the given discriminant. -/
def xdr.NewOperationBody (opType : xdr.OperationType) (value : xdr.ManageOfferOp) :
    Except Error xdr.OperationBody :=
  .ok { Discriminant := opType, ManageOfferOp := some value }

/-- The collaborators as the specification describes them, over an external
account-ID codec. -/
def specCollaborators (decodeAddress : String → Option xdr.AccountId) : Collaborators :=
  { ToXDR := Asset.ToXDR decodeAddress,
    amountParse := amount.Parse,
    priceParse := price.Parse,
    NewOperationBody := xdr.NewOperationBody }

/-- The cache-free build of the specification's design notes: a function of
the five user-facing fields alone.  It encodes both assets, parses the amount
and the price, assembles the record with the offer identifier, and wraps it
under the manage-offer discriminant; a failing step is reported with the field
it belongs to, and then no operation is produced. -/
def buildEncoded (c : Collaborators) (selling buying : Asset) (amount price : String)
    (offerID : Nat) : xdr.Operation × Option Error :=
  match c.ToXDR selling with
  | .error err => (xdr.Operation.zero, some (errors.Wrap err "Failed to set XDR 'Selling' field"))
  | .ok s =>
    match c.ToXDR buying with
    | .error err => (xdr.Operation.zero, some (errors.Wrap err "Failed to set XDR 'Buying' field"))
    | .ok b =>
      match c.amountParse amount with
      | .error err => (xdr.Operation.zero, some (errors.Wrap err "Failed to parse 'Amount'"))
      | .ok a =>
        match c.priceParse price with
        | .error err => (xdr.Operation.zero, some (errors.Wrap err "Failed to parse 'Price'"))
        | .ok p =>
          match c.NewOperationBody xdr.OperationTypeManageOffer
              { Selling := s, Buying := b, Amount := a, Price := p, OfferId := offerID } with
          | .error err =>
            (xdr.Operation.zero, some (errors.Wrap err "Failed to build XDR OperationBody"))
          | .ok body => ({ SourceAccount := none, Body := body }, none)

/-! ## Equations of the encode step, one per exit of `BuildXDR` -/

section Equations

variable (c : Collaborators) (mo : ManageOffer)

theorem BuildXDR_eq_selling_error {e : Error} (hs : c.ToXDR mo.Selling = .error e) :
    mo.BuildXDR c =
      ((xdr.Operation.zero, some (errors.Wrap e "Failed to set XDR 'Selling' field")), mo) := by
  simp [ManageOffer.BuildXDR, hs]

theorem BuildXDR_eq_buying_error {s : xdr.Asset} {e : Error}
    (hs : c.ToXDR mo.Selling = .ok s) (hb : c.ToXDR mo.Buying = .error e) :
    mo.BuildXDR c =
      ((xdr.Operation.zero, some (errors.Wrap e "Failed to set XDR 'Buying' field")),
        { mo with xdrOp := { mo.xdrOp with Selling := s } }) := by
  simp [ManageOffer.BuildXDR, hs, hb]

theorem BuildXDR_eq_amount_error {s b : xdr.Asset} {e : Error}
    (hs : c.ToXDR mo.Selling = .ok s) (hb : c.ToXDR mo.Buying = .ok b)
    (ha : c.amountParse mo.Amount = .error e) :
    mo.BuildXDR c =
      ((xdr.Operation.zero, some (errors.Wrap e "Failed to parse 'Amount'")),
        { mo with xdrOp := { mo.xdrOp with Selling := s, Buying := b } }) := by
  simp [ManageOffer.BuildXDR, hs, hb, ha]

theorem BuildXDR_eq_price_error {s b : xdr.Asset} {a : Int} {e : Error}
    (hs : c.ToXDR mo.Selling = .ok s) (hb : c.ToXDR mo.Buying = .ok b)
    (ha : c.amountParse mo.Amount = .ok a) (hp : c.priceParse mo.Price = .error e) :
    mo.BuildXDR c =
      ((xdr.Operation.zero, some (errors.Wrap e "Failed to parse 'Price'")),
        { mo with xdrOp := { mo.xdrOp with Selling := s, Buying := b, Amount := a } }) := by
  simp [ManageOffer.BuildXDR, hs, hb, ha, hp]

theorem BuildXDR_eq_body_error {s b : xdr.Asset} {a : Int} {p : xdr.Price} {e : Error}
    (hs : c.ToXDR mo.Selling = .ok s) (hb : c.ToXDR mo.Buying = .ok b)
    (ha : c.amountParse mo.Amount = .ok a) (hp : c.priceParse mo.Price = .ok p)
    (hn : c.NewOperationBody xdr.OperationTypeManageOffer
      { Selling := s, Buying := b, Amount := a, Price := p, OfferId := mo.OfferID } = .error e) :
    mo.BuildXDR c =
      ((xdr.Operation.zero, some (errors.Wrap e "Failed to build XDR OperationBody")),
        { mo with xdrOp :=
          { Selling := s, Buying := b, Amount := a, Price := p, OfferId := mo.OfferID } }) := by
  simp [ManageOffer.BuildXDR, hs, hb, ha, hp, hn]

theorem BuildXDR_eq_ok {s b : xdr.Asset} {a : Int} {p : xdr.Price} {body : xdr.OperationBody}
    (hs : c.ToXDR mo.Selling = .ok s) (hb : c.ToXDR mo.Buying = .ok b)
    (ha : c.amountParse mo.Amount = .ok a) (hp : c.priceParse mo.Price = .ok p)
    (hn : c.NewOperationBody xdr.OperationTypeManageOffer
      { Selling := s, Buying := b, Amount := a, Price := p, OfferId := mo.OfferID } = .ok body) :
    mo.BuildXDR c =
      (({ SourceAccount := none, Body := body }, none),
        { mo with xdrOp :=
          { Selling := s, Buying := b, Amount := a, Price := p, OfferId := mo.OfferID } }) := by
  simp [ManageOffer.BuildXDR, hs, hb, ha, hp, hn]

end Equations

/-! ## Sample inputs -/

/-- A sample account-ID codec: it accepts exactly one address. -/
def sampleDecodeAddress (address : String) : Option xdr.AccountId :=
  if address = "GBAQPADEYSKYMYXTMASBUIS5JI3LMOAWSTM2CHGDBJ3QDDPNCSO3DVAA" then
    some { key := [4, 16, 120] }
  else none

/-- A sample issuer address, accepted by `sampleDecodeAddress`. -/
def sampleIssuer : String := "GBAQPADEYSKYMYXTMASBUIS5JI3LMOAWSTM2CHGDBJ3QDDPNCSO3DVAA"

/-- The collaborators of the specification over the sample codec. -/
def sampleCollaborators : Collaborators := specCollaborators sampleDecodeAddress

/-- Collaborators whose body assembly always fails with `EncodingFailure`; the
other three are those of the specification over the sample codec. -/
def failingBodyCollaborators : Collaborators :=
  { ToXDR := Asset.ToXDR sampleDecodeAddress,
    amountParse := amount.Parse,
    priceParse := price.Parse,
    NewOperationBody := fun _ _ => .error Error.EncodingFailure }

/-- A record that differs from the zero record in every field, used as a
stale cache. -/
def staleRecord : xdr.ManageOfferOp :=
  { Selling := xdr.Asset.Credit "OLD" { key := [9] },
    Buying := xdr.Asset.Credit "OLD" { key := [9] },
    Amount := 99, Price := { N := 5, D := 6 }, OfferId := 77 }

/-! ## Success of the encode step -/

/-- C1: `BuildXDR` returns an operation without an error exactly when
`Selling.ToXDR`, `Buying.ToXDR`, `amount.Parse(Amount)`, `price.Parse(Price)`
and `xdr.NewOperationBody` all succeed, the last one on the record made of
the two encoded assets, the parsed amount, the parsed price and the builder's
`OfferID`, under the manage-offer discriminant; and in that case the returned
operation carries exactly the body `NewOperationBody` built. -/
theorem BuildXDR_succeeds_iff (c : Collaborators) (mo : ManageOffer) :
    ((mo.BuildXDR c).1.2 = none ↔
      ∃ s b a p body,
        c.ToXDR mo.Selling = .ok s ∧ c.ToXDR mo.Buying = .ok b ∧
        c.amountParse mo.Amount = .ok a ∧ c.priceParse mo.Price = .ok p ∧
        c.NewOperationBody xdr.OperationTypeManageOffer
          { Selling := s, Buying := b, Amount := a, Price := p, OfferId := mo.OfferID }
            = .ok body) ∧
    (∀ s b a p body,
        c.ToXDR mo.Selling = .ok s → c.ToXDR mo.Buying = .ok b →
        c.amountParse mo.Amount = .ok a → c.priceParse mo.Price = .ok p →
        c.NewOperationBody xdr.OperationTypeManageOffer
          { Selling := s, Buying := b, Amount := a, Price := p, OfferId := mo.OfferID }
            = .ok body →
        (mo.BuildXDR c).1 = ({ SourceAccount := none, Body := body }, none)) := by
  refine ⟨⟨fun h => ?_, ?_⟩, ?_⟩
  · cases hs : c.ToXDR mo.Selling with
    | error e => rw [BuildXDR_eq_selling_error c mo hs] at h; simp at h
    | ok s =>
      cases hb : c.ToXDR mo.Buying with
      | error e => rw [BuildXDR_eq_buying_error c mo hs hb] at h; simp at h
      | ok b =>
        cases ha : c.amountParse mo.Amount with
        | error e => rw [BuildXDR_eq_amount_error c mo hs hb ha] at h; simp at h
        | ok a =>
          cases hp : c.priceParse mo.Price with
          | error e => rw [BuildXDR_eq_price_error c mo hs hb ha hp] at h; simp at h
          | ok p =>
            cases hn : c.NewOperationBody xdr.OperationTypeManageOffer
              { Selling := s, Buying := b, Amount := a, Price := p, OfferId := mo.OfferID } with
            | error e => rw [BuildXDR_eq_body_error c mo hs hb ha hp hn] at h; simp at h
            | ok body => exact ⟨s, b, a, p, body, rfl, rfl, rfl, rfl, hn⟩
  · rintro ⟨s, b, a, p, body, hs, hb, ha, hp, hn⟩
    rw [BuildXDR_eq_ok c mo hs hb ha hp hn]
  · intro s b a p body hs hb ha hp hn
    rw [BuildXDR_eq_ok c mo hs hb ha hp hn]

/-- Witness: with the collaborators of the specification, an offer
selling the native asset for an issued asset at amount `1.5` and price `3:4`
meets every hypothesis and is built into the expected operation. -/
theorem BuildXDR_succeeds_iff_witness :
    ((NewUpdateOfferOp NewNativeAsset (NewAsset "EUR" sampleIssuer) "1.5" "3:4" 7).BuildXDR
        sampleCollaborators).1 =
      ({ SourceAccount := none,
         Body := { Discriminant := xdr.OperationType.ManageOffer,
                   ManageOfferOp := some
                    { Selling := xdr.Asset.Native,
                      Buying := xdr.Asset.Credit "EUR" { key := [4, 16, 120] },
                      Amount := 15000000, Price := { N := 3, D := 4 }, OfferId := 7 } } },
        none) :=
  (BuildXDR_succeeds_iff sampleCollaborators
      (NewUpdateOfferOp NewNativeAsset (NewAsset "EUR" sampleIssuer) "1.5" "3:4" 7)).2
    xdr.Asset.Native (xdr.Asset.Credit "EUR" { key := [4, 16, 120] }) 15000000
    { N := 3, D := 4 } _ rfl rfl rfl rfl rfl

/-! ## Failure of the encode step -/

/-- C2: when a sub-step of `BuildXDR` fails, the method returns the empty
operation together with the error of the first failing step, taken in the
order selling, buying, amount, price, body assembly, wrapped with the context
message of that step.  Each case holds whatever the later steps would do:
they are not consulted.  In particular an operation whose `Selling` and
`Amount` are both invalid reports the `Selling` failure.  Whenever an error
is returned the operation returned with it is the empty one. -/
theorem BuildXDR_reports_first_step_in_error (c : Collaborators) (mo : ManageOffer) :
    (∀ e, c.ToXDR mo.Selling = .error e →
      (mo.BuildXDR c).1 =
        (xdr.Operation.zero, some (errors.Wrap e "Failed to set XDR 'Selling' field"))) ∧
    (∀ s e, c.ToXDR mo.Selling = .ok s → c.ToXDR mo.Buying = .error e →
      (mo.BuildXDR c).1 =
        (xdr.Operation.zero, some (errors.Wrap e "Failed to set XDR 'Buying' field"))) ∧
    (∀ s b e, c.ToXDR mo.Selling = .ok s → c.ToXDR mo.Buying = .ok b →
      c.amountParse mo.Amount = .error e →
      (mo.BuildXDR c).1 =
        (xdr.Operation.zero, some (errors.Wrap e "Failed to parse 'Amount'"))) ∧
    (∀ s b a e, c.ToXDR mo.Selling = .ok s → c.ToXDR mo.Buying = .ok b →
      c.amountParse mo.Amount = .ok a → c.priceParse mo.Price = .error e →
      (mo.BuildXDR c).1 =
        (xdr.Operation.zero, some (errors.Wrap e "Failed to parse 'Price'"))) ∧
    (∀ s b a p e, c.ToXDR mo.Selling = .ok s → c.ToXDR mo.Buying = .ok b →
      c.amountParse mo.Amount = .ok a → c.priceParse mo.Price = .ok p →
      c.NewOperationBody xdr.OperationTypeManageOffer
        { Selling := s, Buying := b, Amount := a, Price := p, OfferId := mo.OfferID }
          = .error e →
      (mo.BuildXDR c).1 =
        (xdr.Operation.zero, some (errors.Wrap e "Failed to build XDR OperationBody"))) ∧
    (∀ e e2, c.ToXDR mo.Selling = .error e → c.amountParse mo.Amount = .error e2 →
      (mo.BuildXDR c).1 =
        (xdr.Operation.zero, some (errors.Wrap e "Failed to set XDR 'Selling' field"))) ∧
    (∀ err, (mo.BuildXDR c).1.2 = some err → (mo.BuildXDR c).1.1 = xdr.Operation.zero) := by
  refine ⟨?_, ?_, ?_, ?_, ?_, ?_, ?_⟩
  · intro e hs
    rw [BuildXDR_eq_selling_error c mo hs]
  · intro s e hs hb
    rw [BuildXDR_eq_buying_error c mo hs hb]
  · intro s b e hs hb ha
    rw [BuildXDR_eq_amount_error c mo hs hb ha]
  · intro s b a e hs hb ha hp
    rw [BuildXDR_eq_price_error c mo hs hb ha hp]
  · intro s b a p e hs hb ha hp hn
    rw [BuildXDR_eq_body_error c mo hs hb ha hp hn]
  · intro e e2 hs _
    rw [BuildXDR_eq_selling_error c mo hs]
  · intro err h
    cases hs : c.ToXDR mo.Selling with
    | error e => rw [BuildXDR_eq_selling_error c mo hs]
    | ok s =>
      cases hb : c.ToXDR mo.Buying with
      | error e => rw [BuildXDR_eq_buying_error c mo hs hb]
      | ok b =>
        cases ha : c.amountParse mo.Amount with
        | error e => rw [BuildXDR_eq_amount_error c mo hs hb ha]
        | ok a =>
          cases hp : c.priceParse mo.Price with
          | error e => rw [BuildXDR_eq_price_error c mo hs hb ha hp]
          | ok p =>
            cases hn : c.NewOperationBody xdr.OperationTypeManageOffer
              { Selling := s, Buying := b, Amount := a, Price := p, OfferId := mo.OfferID } with
            | error e => rw [BuildXDR_eq_body_error c mo hs hb ha hp hn]
            | ok body => rw [BuildXDR_eq_ok c mo hs hb ha hp hn] at h; simp at h

/-- Witness: one concrete failing offer per step.  The first has both
an invalid `Selling` (empty asset code) and an invalid `Amount` and reports
`Selling`; the others fail at `Buying` (issuer rejected by the codec),
`Amount` (eight fractional digits), `Price` (zero) and body assembly. -/
theorem BuildXDR_reports_first_step_in_error_witness :
    ((NewCreateOfferOp (NewAsset "" sampleIssuer) NewNativeAsset "abc" "1").BuildXDR
        sampleCollaborators).1 =
      (xdr.Operation.zero,
        some (Error.Wrapped Error.InvalidAsset "Failed to set XDR 'Selling' field")) ∧
    ((NewCreateOfferOp NewNativeAsset (NewAsset "USD" "nobody") "1" "1").BuildXDR
        sampleCollaborators).1 =
      (xdr.Operation.zero,
        some (Error.Wrapped Error.InvalidIssuer "Failed to set XDR 'Buying' field")) ∧
    ((NewCreateOfferOp NewNativeAsset (NewAsset "USD" sampleIssuer) "0.12345678" "1").BuildXDR
        sampleCollaborators).1 =
      (xdr.Operation.zero,
        some (Error.Wrapped (Error.InvalidAmount "too many fractional digits")
          "Failed to parse 'Amount'")) ∧
    ((NewCreateOfferOp NewNativeAsset (NewAsset "USD" sampleIssuer) "1" "0").BuildXDR
        sampleCollaborators).1 =
      (xdr.Operation.zero, some (Error.Wrapped Error.InvalidPrice "Failed to parse 'Price'")) ∧
    ((NewCreateOfferOp NewNativeAsset (NewAsset "USD" sampleIssuer) "1" "1").BuildXDR
        failingBodyCollaborators).1 =
      (xdr.Operation.zero,
        some (Error.Wrapped Error.EncodingFailure "Failed to build XDR OperationBody")) ∧
    ((NewCreateOfferOp NewNativeAsset (NewAsset "USD" sampleIssuer) "1" "0").BuildXDR
        sampleCollaborators).1.1 = xdr.Operation.zero :=
  ⟨(BuildXDR_reports_first_step_in_error sampleCollaborators
      (NewCreateOfferOp (NewAsset "" sampleIssuer) NewNativeAsset "abc" "1")).2.2.2.2.2.1
      Error.InvalidAsset (Error.InvalidAmount "malformed") rfl rfl,
   (BuildXDR_reports_first_step_in_error sampleCollaborators
      (NewCreateOfferOp NewNativeAsset (NewAsset "USD" "nobody") "1" "1")).2.1
      xdr.Asset.Native Error.InvalidIssuer rfl rfl,
   (BuildXDR_reports_first_step_in_error sampleCollaborators
      (NewCreateOfferOp NewNativeAsset (NewAsset "USD" sampleIssuer) "0.12345678" "1")).2.2.1
      xdr.Asset.Native (xdr.Asset.Credit "USD" { key := [4, 16, 120] })
      (Error.InvalidAmount "too many fractional digits") rfl rfl rfl,
   (BuildXDR_reports_first_step_in_error sampleCollaborators
      (NewCreateOfferOp NewNativeAsset (NewAsset "USD" sampleIssuer) "1" "0")).2.2.2.1
      xdr.Asset.Native (xdr.Asset.Credit "USD" { key := [4, 16, 120] }) 10000000
      Error.InvalidPrice rfl rfl rfl rfl,
   (BuildXDR_reports_first_step_in_error failingBodyCollaborators
      (NewCreateOfferOp NewNativeAsset (NewAsset "USD" sampleIssuer) "1" "1")).2.2.2.2.1
      xdr.Asset.Native (xdr.Asset.Credit "USD" { key := [4, 16, 120] }) 10000000
      { N := 1, D := 1 } Error.EncodingFailure rfl rfl rfl rfl rfl,
   (BuildXDR_reports_first_step_in_error sampleCollaborators
      (NewCreateOfferOp NewNativeAsset (NewAsset "USD" sampleIssuer) "1" "0")).2.2.2.2.2.2
      (Error.Wrapped Error.InvalidPrice "Failed to parse 'Price'") rfl⟩

/-! ## The factory functions -/

/-- C3: `NewDeleteOfferOp offerID` carries the given offer id, the amount
string `"0"` (which parses to the zero amount), the price string `"1"` (which
parses to the price 1/1), and the fixed placeholder pair: the native asset as
`Selling` and the issued asset `FAKE` with its fixed issuer as `Buying`, two
different assets.  `Selling`, `Buying`, `Amount` and `Price` are the same for
any two offer ids. -/
theorem NewDeleteOfferOp_fields (offerID other : Nat) :
    (NewDeleteOfferOp offerID).OfferID = offerID ∧
    (NewDeleteOfferOp offerID).Amount = "0" ∧
    amount.Parse (NewDeleteOfferOp offerID).Amount = .ok 0 ∧
    (NewDeleteOfferOp offerID).Price = "1" ∧
    price.Parse (NewDeleteOfferOp offerID).Price = .ok { N := 1, D := 1 } ∧
    (NewDeleteOfferOp offerID).Selling = NewNativeAsset ∧
    (NewDeleteOfferOp offerID).Buying =
      NewAsset "FAKE" "GBAQPADEYSKYMYXTMASBUIS5JI3LMOAWSTM2CHGDBJ3QDDPNCSO3DVAA" ∧
    (NewDeleteOfferOp offerID).Selling ≠ (NewDeleteOfferOp offerID).Buying ∧
    (NewDeleteOfferOp offerID).Selling = (NewDeleteOfferOp other).Selling ∧
    (NewDeleteOfferOp offerID).Buying = (NewDeleteOfferOp other).Buying ∧
    (NewDeleteOfferOp offerID).Amount = (NewDeleteOfferOp other).Amount ∧
    (NewDeleteOfferOp offerID).Price = (NewDeleteOfferOp other).Price := by
  have hAmount : amount.Parse "0" = .ok 0 := by rfl
  have hPrice : price.Parse "1" = .ok { N := 1, D := 1 } := by rfl
  refine ⟨rfl, rfl, hAmount, rfl, hPrice, rfl, rfl, ?_, rfl, rfl, rfl, rfl⟩
  simp [NewDeleteOfferOp, NewNativeAsset, NewAsset]

/-- C4: `NewCreateOfferOp` returns a builder whose `OfferID` is 0 and whose
`Selling`, `Buying`, `Amount` and `Price` are exactly the arguments, whatever
they are (nothing is validated or normalised), with the cached record at its
zero value. -/
theorem NewCreateOfferOp_fields (selling buying : Asset) (amount price : String) :
    (NewCreateOfferOp selling buying amount price).OfferID = 0 ∧
    (NewCreateOfferOp selling buying amount price).Selling = selling ∧
    (NewCreateOfferOp selling buying amount price).Buying = buying ∧
    (NewCreateOfferOp selling buying amount price).Amount = amount ∧
    (NewCreateOfferOp selling buying amount price).Price = price ∧
    (NewCreateOfferOp selling buying amount price).xdrOp = xdr.ManageOfferOp.zero :=
  ⟨rfl, rfl, rfl, rfl, rfl, rfl⟩

/-- C5: `NewUpdateOfferOp` returns a builder whose `OfferID` is the given id
and whose `Selling`, `Buying`, `Amount` and `Price` are exactly the arguments;
this holds for every id, so in particular for every 64-bit unsigned one, 0
and the maximum `2^64 - 1` included: the id is not checked against anything. -/
theorem NewUpdateOfferOp_fields (selling buying : Asset) (amount price : String)
    (offerID : Nat) :
    (NewUpdateOfferOp selling buying amount price offerID).OfferID = offerID ∧
    (NewUpdateOfferOp selling buying amount price offerID).Selling = selling ∧
    (NewUpdateOfferOp selling buying amount price offerID).Buying = buying ∧
    (NewUpdateOfferOp selling buying amount price offerID).Amount = amount ∧
    (NewUpdateOfferOp selling buying amount price offerID).Price = price ∧
    (NewUpdateOfferOp selling buying amount price 0).OfferID = 0 ∧
    (NewUpdateOfferOp selling buying amount price (2 ^ 64 - 1)).OfferID = 2 ^ 64 - 1 :=
  ⟨rfl, rfl, rfl, rfl, rfl, rfl, rfl⟩

/-! ## The cached record -/

/-- C6: `BuildXDR` is idempotent.  Whatever the cached record holds, a second
call right after the first returns the same operation and the same error
(hence the same success or failure), and leaves the whole builder, cached
record included, as the first call left it. -/
theorem BuildXDR_idempotent (c : Collaborators) (mo : ManageOffer) :
    ((mo.BuildXDR c).2.BuildXDR c).1.1 = (mo.BuildXDR c).1.1 ∧
    ((mo.BuildXDR c).2.BuildXDR c).1.2 = (mo.BuildXDR c).1.2 ∧
    (((mo.BuildXDR c).2.BuildXDR c).1.2 = none ↔ (mo.BuildXDR c).1.2 = none) ∧
    ((mo.BuildXDR c).2.BuildXDR c).2 = (mo.BuildXDR c).2 := by
  have key : (mo.BuildXDR c).2.BuildXDR c = mo.BuildXDR c := by
    cases hs : c.ToXDR mo.Selling with
    | error e =>
      rw [BuildXDR_eq_selling_error c mo hs]
      exact BuildXDR_eq_selling_error c mo hs
    | ok s =>
      cases hb : c.ToXDR mo.Buying with
      | error e =>
        rw [BuildXDR_eq_buying_error c mo hs hb]
        exact BuildXDR_eq_buying_error c _ hs hb
      | ok b =>
        cases ha : c.amountParse mo.Amount with
        | error e =>
          rw [BuildXDR_eq_amount_error c mo hs hb ha]
          exact BuildXDR_eq_amount_error c _ hs hb ha
        | ok a =>
          cases hp : c.priceParse mo.Price with
          | error e =>
            rw [BuildXDR_eq_price_error c mo hs hb ha hp]
            exact BuildXDR_eq_price_error c _ hs hb ha hp
          | ok p =>
            cases hn : c.NewOperationBody xdr.OperationTypeManageOffer
              { Selling := s, Buying := b, Amount := a, Price := p, OfferId := mo.OfferID } with
            | error e =>
              rw [BuildXDR_eq_body_error c mo hs hb ha hp hn]
              exact BuildXDR_eq_body_error c _ hs hb ha hp hn
            | ok body =>
              rw [BuildXDR_eq_ok c mo hs hb ha hp hn]
              exact BuildXDR_eq_ok c _ hs hb ha hp hn
  rw [key]
  exact ⟨rfl, rfl, Iff.rfl, rfl⟩

/-- The builder after `BuildXDR` is the builder before it with, at most, a
different cached record. -/
theorem BuildXDR_state (c : Collaborators) (mo : ManageOffer) :
    ∃ x, (mo.BuildXDR c).2 = { mo with xdrOp := x } := by
  cases hs : c.ToXDR mo.Selling with
  | error e => exact ⟨mo.xdrOp, by rw [BuildXDR_eq_selling_error c mo hs]⟩
  | ok s =>
    cases hb : c.ToXDR mo.Buying with
    | error e => exact ⟨_, by rw [BuildXDR_eq_buying_error c mo hs hb]⟩
    | ok b =>
      cases ha : c.amountParse mo.Amount with
      | error e => exact ⟨_, by rw [BuildXDR_eq_amount_error c mo hs hb ha]⟩
      | ok a =>
        cases hp : c.priceParse mo.Price with
        | error e => exact ⟨_, by rw [BuildXDR_eq_price_error c mo hs hb ha hp]⟩
        | ok p =>
          cases hn : c.NewOperationBody xdr.OperationTypeManageOffer
            { Selling := s, Buying := b, Amount := a, Price := p, OfferId := mo.OfferID } with
          | error e => exact ⟨_, by rw [BuildXDR_eq_body_error c mo hs hb ha hp hn]⟩
          | ok body => exact ⟨_, by rw [BuildXDR_eq_ok c mo hs hb ha hp hn]⟩

/-- C7: `BuildXDR` changes nothing on the builder except the cached record:
whether the call succeeds or fails, `Selling`, `Buying`, `Amount`, `Price`
and `OfferID` after the call equal their values before it. -/
theorem BuildXDR_frame (c : Collaborators) (mo : ManageOffer) :
    (mo.BuildXDR c).2.Selling = mo.Selling ∧
    (mo.BuildXDR c).2.Buying = mo.Buying ∧
    (mo.BuildXDR c).2.Amount = mo.Amount ∧
    (mo.BuildXDR c).2.Price = mo.Price ∧
    (mo.BuildXDR c).2.OfferID = mo.OfferID := by
  obtain ⟨x, hx⟩ := BuildXDR_state c mo
  rw [hx]
  exact ⟨rfl, rfl, rfl, rfl, rfl⟩

/-- C8: with the collaborators of the specification, selling the native asset
for a well-formed issued `USD` asset (its issuer is accepted by the account-ID
codec) at amount `"100.0000000"` and price `"2:1"`, `BuildXDR` on the builder
made by `NewCreateOfferOp` succeeds; the manage-offer record of the result has
offer id 0, amount 1000000000 and price 2/1. -/
theorem BuildXDR_create_example (decodeAddress : String → Option xdr.AccountId)
    (issuer : String) (accountId : xdr.AccountId)
    (hIssuer : decodeAddress issuer = some accountId) :
    ((NewCreateOfferOp NewNativeAsset (NewAsset "USD" issuer) "100.0000000" "2:1").BuildXDR
        (specCollaborators decodeAddress)).1 =
      ({ SourceAccount := none,
         Body := { Discriminant := xdr.OperationType.ManageOffer,
                   ManageOfferOp := some
                    { Selling := xdr.Asset.Native,
                      Buying := xdr.Asset.Credit "USD" accountId,
                      Amount := 1000000000, Price := { N := 2, D := 1 }, OfferId := 0 } } },
        none) := by
  have hs : (specCollaborators decodeAddress).ToXDR NewNativeAsset = .ok xdr.Asset.Native := rfl
  have hcode : (1 ≤ "USD".toList.length ∧ "USD".toList.length ≤ 12
      ∧ "USD".toList.all (fun ch => ch.isAlphanum) = true) := by decide
  have hb : (specCollaborators decodeAddress).ToXDR (NewAsset "USD" issuer)
      = .ok (xdr.Asset.Credit "USD" accountId) := by
    simp only [specCollaborators, NewAsset, Asset.ToXDR, hcode, hIssuer]
    simp
  have ha : (specCollaborators decodeAddress).amountParse "100.0000000" = .ok 1000000000 := by
    rfl
  have hp : (specCollaborators decodeAddress).priceParse "2:1" = .ok { N := 2, D := 1 } := by
    rfl
  rw [BuildXDR_eq_ok (specCollaborators decodeAddress) _ hs hb ha hp rfl]
  rfl

/-- Witness: the sample codec accepts the sample issuer. -/
theorem BuildXDR_create_example_witness :
    ((NewCreateOfferOp NewNativeAsset (NewAsset "USD" sampleIssuer) "100.0000000"
        "2:1").BuildXDR (specCollaborators sampleDecodeAddress)).1 =
      ({ SourceAccount := none,
         Body := { Discriminant := xdr.OperationType.ManageOffer,
                   ManageOfferOp := some
                    { Selling := xdr.Asset.Native,
                      Buying := xdr.Asset.Credit "USD" { key := [4, 16, 120] },
                      Amount := 1000000000, Price := { N := 2, D := 1 }, OfferId := 0 } } },
        none) :=
  BuildXDR_create_example sampleDecodeAddress sampleIssuer { key := [4, 16, 120] } rfl

/-- With any cached record, `BuildXDR` returns what the cache-free build
returns on the five user-facing fields. -/
theorem BuildXDR_result_eq_buildEncoded (c : Collaborators) (mo : ManageOffer) :
    (mo.BuildXDR c).1 = buildEncoded c mo.Selling mo.Buying mo.Amount mo.Price mo.OfferID := by
  cases hs : c.ToXDR mo.Selling with
  | error e => rw [BuildXDR_eq_selling_error c mo hs]; simp [buildEncoded, hs]
  | ok s =>
    cases hb : c.ToXDR mo.Buying with
    | error e => rw [BuildXDR_eq_buying_error c mo hs hb]; simp [buildEncoded, hs, hb]
    | ok b =>
      cases ha : c.amountParse mo.Amount with
      | error e => rw [BuildXDR_eq_amount_error c mo hs hb ha]; simp [buildEncoded, hs, hb, ha]
      | ok a =>
        cases hp : c.priceParse mo.Price with
        | error e =>
          rw [BuildXDR_eq_price_error c mo hs hb ha hp]; simp [buildEncoded, hs, hb, ha, hp]
        | ok p =>
          cases hn : c.NewOperationBody xdr.OperationTypeManageOffer
            { Selling := s, Buying := b, Amount := a, Price := p, OfferId := mo.OfferID } with
          | error e =>
            rw [BuildXDR_eq_body_error c mo hs hb ha hp hn]
            simp [buildEncoded, hs, hb, ha, hp, hn]
          | ok body =>
            rw [BuildXDR_eq_ok c mo hs hb ha hp hn]
            simp [buildEncoded, hs, hb, ha, hp, hn]

/-- After a successful `BuildXDR` the cached record is the record made of the
values the collaborators returned and of the builder's `OfferID`. -/
theorem BuildXDR_cache_of_success (c : Collaborators) (mo : ManageOffer)
    (hok : (mo.BuildXDR c).1.2 = none) :
    ∃ s b a p,
      c.ToXDR mo.Selling = .ok s ∧ c.ToXDR mo.Buying = .ok b ∧
      c.amountParse mo.Amount = .ok a ∧ c.priceParse mo.Price = .ok p ∧
      (mo.BuildXDR c).2.xdrOp =
        { Selling := s, Buying := b, Amount := a, Price := p, OfferId := mo.OfferID } := by
  cases hs : c.ToXDR mo.Selling with
  | error e => rw [BuildXDR_eq_selling_error c mo hs] at hok; simp at hok
  | ok s =>
    cases hb : c.ToXDR mo.Buying with
    | error e => rw [BuildXDR_eq_buying_error c mo hs hb] at hok; simp at hok
    | ok b =>
      cases ha : c.amountParse mo.Amount with
      | error e => rw [BuildXDR_eq_amount_error c mo hs hb ha] at hok; simp at hok
      | ok a =>
        cases hp : c.priceParse mo.Price with
        | error e => rw [BuildXDR_eq_price_error c mo hs hb ha hp] at hok; simp at hok
        | ok p =>
          cases hn : c.NewOperationBody xdr.OperationTypeManageOffer
            { Selling := s, Buying := b, Amount := a, Price := p, OfferId := mo.OfferID } with
          | error e => rw [BuildXDR_eq_body_error c mo hs hb ha hp hn] at hok; simp at hok
          | ok body =>
            exact ⟨s, b, a, p, rfl, rfl, rfl, rfl, by rw [BuildXDR_eq_ok c mo hs hb ha hp hn]⟩

/-- C9: the value `BuildXDR` returns does not depend on the cached record.
Two builders that agree on `Selling`, `Buying`, `Amount`, `Price` and
`OfferID`, whatever their cached records, get the same operation and the same
error, equal to what the cache-free build of those five fields returns; and
after a successful call both hold the same cached record. -/
theorem BuildXDR_ignores_cached_record (c : Collaborators) (mo1 mo2 : ManageOffer)
    (hSelling : mo1.Selling = mo2.Selling) (hBuying : mo1.Buying = mo2.Buying)
    (hAmount : mo1.Amount = mo2.Amount) (hPrice : mo1.Price = mo2.Price)
    (hOfferID : mo1.OfferID = mo2.OfferID) :
    (mo1.BuildXDR c).1 = (mo2.BuildXDR c).1 ∧
    (mo1.BuildXDR c).1 =
      buildEncoded c mo1.Selling mo1.Buying mo1.Amount mo1.Price mo1.OfferID ∧
    ((mo1.BuildXDR c).1.2 = none → (mo1.BuildXDR c).2.xdrOp = (mo2.BuildXDR c).2.xdrOp) := by
  have h1 := BuildXDR_result_eq_buildEncoded c mo1
  have h2 := BuildXDR_result_eq_buildEncoded c mo2
  have h12 : (mo1.BuildXDR c).1 = (mo2.BuildXDR c).1 := by
    rw [h1, h2, hSelling, hBuying, hAmount, hPrice, hOfferID]
  refine ⟨h12, h1, fun hok => ?_⟩
  have hok2 : (mo2.BuildXDR c).1.2 = none := by rw [← h12]; exact hok
  obtain ⟨s, b, a, p, hs, hb, ha, hp, hx⟩ := BuildXDR_cache_of_success c mo1 hok
  obtain ⟨s2, b2, a2, p2, hs2, hb2, ha2, hp2, hx2⟩ := BuildXDR_cache_of_success c mo2 hok2
  rw [hSelling, hs2] at hs
  rw [hBuying, hb2] at hb
  rw [hAmount, ha2] at ha
  rw [hPrice, hp2] at hp
  cases hs
  cases hb
  cases ha
  cases hp
  rw [hx, hx2, hOfferID]

/-- Witness: a fresh builder and one with a stale cached record that
differs in every field; both builds succeed. -/
theorem BuildXDR_ignores_cached_record_witness :
    (NewCreateOfferOp NewNativeAsset (NewAsset "USD" sampleIssuer) "2.5" "7:3").xdrOp ≠
      staleRecord ∧
    ((NewCreateOfferOp NewNativeAsset (NewAsset "USD" sampleIssuer) "2.5" "7:3").BuildXDR
        sampleCollaborators).1 =
      (({ NewCreateOfferOp NewNativeAsset (NewAsset "USD" sampleIssuer) "2.5" "7:3" with
          xdrOp := staleRecord }).BuildXDR sampleCollaborators).1 ∧
    ((NewCreateOfferOp NewNativeAsset (NewAsset "USD" sampleIssuer) "2.5" "7:3").BuildXDR
        sampleCollaborators).1 =
      buildEncoded sampleCollaborators NewNativeAsset (NewAsset "USD" sampleIssuer)
        "2.5" "7:3" 0 ∧
    ((NewCreateOfferOp NewNativeAsset (NewAsset "USD" sampleIssuer) "2.5" "7:3").BuildXDR
        sampleCollaborators).2.xdrOp =
      (({ NewCreateOfferOp NewNativeAsset (NewAsset "USD" sampleIssuer) "2.5" "7:3" with
          xdrOp := staleRecord }).BuildXDR sampleCollaborators).2.xdrOp :=
  have h := BuildXDR_ignores_cached_record sampleCollaborators
    (NewCreateOfferOp NewNativeAsset (NewAsset "USD" sampleIssuer) "2.5" "7:3")
    { NewCreateOfferOp NewNativeAsset (NewAsset "USD" sampleIssuer) "2.5" "7:3" with
      xdrOp := staleRecord } rfl rfl rfl rfl rfl
  ⟨by decide, h.1, h.2.1, h.2.2 rfl⟩

/-- C10: a failed `BuildXDR` is not atomic on the cached record: the writes
of the steps that succeeded before the failure are kept, and no later write is
made.  If `Selling` fails to encode the cached record is unchanged.  If
`Selling` encodes and `Buying` fails, only the cached `Selling` is written.
If both encode and `Amount` fails to parse, the cached `Selling` and `Buying`
are the two encoded assets while the cached `Amount`, `Price` and `OfferId`
are what they were before the call.  If `Price` fails, the cached `Price` and
`OfferId` are what they were.  If the body assembly fails, all five were
written. -/
theorem BuildXDR_failed_call_keeps_earlier_writes (c : Collaborators) (mo : ManageOffer) :
    (∀ e, c.ToXDR mo.Selling = .error e → (mo.BuildXDR c).2.xdrOp = mo.xdrOp) ∧
    (∀ s e, c.ToXDR mo.Selling = .ok s → c.ToXDR mo.Buying = .error e →
      (mo.BuildXDR c).2.xdrOp =
        { Selling := s, Buying := mo.xdrOp.Buying, Amount := mo.xdrOp.Amount,
          Price := mo.xdrOp.Price, OfferId := mo.xdrOp.OfferId }) ∧
    (∀ s b e, c.ToXDR mo.Selling = .ok s → c.ToXDR mo.Buying = .ok b →
      c.amountParse mo.Amount = .error e →
      (mo.BuildXDR c).1.2 ≠ none ∧
      (mo.BuildXDR c).2.xdrOp.Selling = s ∧
      (mo.BuildXDR c).2.xdrOp.Buying = b ∧
      (mo.BuildXDR c).2.xdrOp.Amount = mo.xdrOp.Amount ∧
      (mo.BuildXDR c).2.xdrOp.Price = mo.xdrOp.Price ∧
      (mo.BuildXDR c).2.xdrOp.OfferId = mo.xdrOp.OfferId) ∧
    (∀ s b a e, c.ToXDR mo.Selling = .ok s → c.ToXDR mo.Buying = .ok b →
      c.amountParse mo.Amount = .ok a → c.priceParse mo.Price = .error e →
      (mo.BuildXDR c).2.xdrOp =
        { Selling := s, Buying := b, Amount := a,
          Price := mo.xdrOp.Price, OfferId := mo.xdrOp.OfferId }) ∧
    (∀ s b a p e, c.ToXDR mo.Selling = .ok s → c.ToXDR mo.Buying = .ok b →
      c.amountParse mo.Amount = .ok a → c.priceParse mo.Price = .ok p →
      c.NewOperationBody xdr.OperationTypeManageOffer
        { Selling := s, Buying := b, Amount := a, Price := p, OfferId := mo.OfferID }
          = .error e →
      (mo.BuildXDR c).2.xdrOp =
        { Selling := s, Buying := b, Amount := a, Price := p, OfferId := mo.OfferID }) := by
  refine ⟨?_, ?_, ?_, ?_, ?_⟩
  · intro e hs
    rw [BuildXDR_eq_selling_error c mo hs]
  · intro s e hs hb
    rw [BuildXDR_eq_buying_error c mo hs hb]
  · intro s b e hs hb ha
    rw [BuildXDR_eq_amount_error c mo hs hb ha]
    exact ⟨by simp, rfl, rfl, rfl, rfl, rfl⟩
  · intro s b a e hs hb ha hp
    rw [BuildXDR_eq_price_error c mo hs hb ha hp]
  · intro s b a p e hs hb ha hp hn
    rw [BuildXDR_eq_body_error c mo hs hb ha hp hn]

/-- Witness: a builder with a stale cached record whose `Amount` has
eight fractional digits.  The failed call overwrites the cached `Selling` and
`Buying` and keeps the stale `Amount`, `Price` and `OfferId`, so the cached
record changes although the call fails; with an invalid `Selling` the stale
record is kept whole. -/
theorem BuildXDR_failed_call_keeps_earlier_writes_witness :
    ((({ NewCreateOfferOp NewNativeAsset (NewAsset "USD" sampleIssuer) "0.12345678" "2:1" with
          xdrOp := staleRecord }).BuildXDR sampleCollaborators).1.2 ≠ none ∧
      (({ NewCreateOfferOp NewNativeAsset (NewAsset "USD" sampleIssuer) "0.12345678" "2:1" with
          xdrOp := staleRecord }).BuildXDR sampleCollaborators).2.xdrOp.Selling
        = xdr.Asset.Native ∧
      (({ NewCreateOfferOp NewNativeAsset (NewAsset "USD" sampleIssuer) "0.12345678" "2:1" with
          xdrOp := staleRecord }).BuildXDR sampleCollaborators).2.xdrOp.Buying
        = xdr.Asset.Credit "USD" { key := [4, 16, 120] } ∧
      (({ NewCreateOfferOp NewNativeAsset (NewAsset "USD" sampleIssuer) "0.12345678" "2:1" with
          xdrOp := staleRecord }).BuildXDR sampleCollaborators).2.xdrOp.Amount = 99 ∧
      (({ NewCreateOfferOp NewNativeAsset (NewAsset "USD" sampleIssuer) "0.12345678" "2:1" with
          xdrOp := staleRecord }).BuildXDR sampleCollaborators).2.xdrOp.Price
        = { N := 5, D := 6 } ∧
      (({ NewCreateOfferOp NewNativeAsset (NewAsset "USD" sampleIssuer) "0.12345678" "2:1" with
          xdrOp := staleRecord }).BuildXDR sampleCollaborators).2.xdrOp.OfferId = 77) ∧
    (({ NewCreateOfferOp (NewAsset "" sampleIssuer) NewNativeAsset "1" "2:1" with
        xdrOp := staleRecord }).BuildXDR sampleCollaborators).2.xdrOp = staleRecord :=
  ⟨(BuildXDR_failed_call_keeps_earlier_writes sampleCollaborators
      { NewCreateOfferOp NewNativeAsset (NewAsset "USD" sampleIssuer) "0.12345678" "2:1" with
        xdrOp := staleRecord }).2.2.1
      xdr.Asset.Native (xdr.Asset.Credit "USD" { key := [4, 16, 120] })
      (Error.InvalidAmount "too many fractional digits") rfl rfl rfl,
   (BuildXDR_failed_call_keeps_earlier_writes sampleCollaborators
      { NewCreateOfferOp (NewAsset "" sampleIssuer) NewNativeAsset "1" "2:1" with
        xdrOp := staleRecord }).1 Error.InvalidAsset rfl⟩

end txnbuild
